import Mathlib

/-!
Shallow embedding of the asteroid-shooter simulation engine from
`src/script.js`, together with proofs settling the frozen claims about it.

Conventions of the embedding:
* JavaScript numbers are modelled as exact rationals (`ℚ`); all arithmetic
  appearing in the simulation is affine/quadratic with rational constants.
* The mutable module-level variables (`player`, `bullets`, `asteroids`,
  `boosters`, `score`, `running`, `spawn`, `lastShot`, `fireRate`,
  `spawnRate`, `asteroidSpeed`, `shieldActive`, `shieldTimer`) are collected
  in a single state record `GState`; calls to the browser `alert` are
  modelled as an event trace (`alerts`) carrying the reported score.
* `Math.random()` draws are supplied through an explicit `Draws` record,
  one per tick (the per-tick update performs at most one spawn).
* The canvas (`c.width`, `c.height`) is a parameter `Canvas`.
* Keyboard state (`keys[...]`) and the touch booleans form an `Input`
  snapshot read by the update, as in the source.
-/

namespace AsteroidGame

/-- The canvas dimensions `c.width` / `c.height` read by the code. -/
structure Canvas where
  width : ℚ
  height : ℚ

/-- Input snapshot: the `keys` map plus the three touch booleans. -/
structure Input where
  keys : String → Bool
  touchLeft : Bool
  touchRight : Bool
  touchFire : Bool

/-- The no-input snapshot: no key pressed, no touch zone active. -/
def noInput : Input :=
  { keys := fun _ => false, touchLeft := false, touchRight := false, touchFire := false }

/-- `player = { x, y, w, h }` (script.js line 79). -/
structure Player where
  x : ℚ
  y : ℚ
  w : ℚ
  h : ℚ

/-- A bullet `{ x, y, vy }` (script.js line 170). -/
structure Bullet where
  x : ℚ
  y : ℚ
  vy : ℚ

/-- An asteroid `{ x, y, vy, rot, rSpeed, points, radius, hp }`
(script.js lines 129-138). -/
structure Asteroid where
  x : ℚ
  y : ℚ
  vy : ℚ
  rot : ℚ
  rSpeed : ℚ
  points : List (ℚ × ℚ)
  radius : ℚ
  hp : ℤ

/-- A booster `{ x, y, vy, type, size }` (script.js lines 148-154).
The type tag is the string drawn from `["fireRate", "shield", "score"]`. -/
structure Booster where
  x : ℚ
  y : ℚ
  vy : ℚ
  type : String
  size : ℚ

/-- The whole mutable game state of the IIFE, plus the `alerts` trace of
terminal notifications (`alert(...)` calls, recorded by reported score). -/
structure GState where
  player : Player
  bullets : List Bullet
  asteroids : List Asteroid
  boosters : List Booster
  score : ℤ
  running : Bool
  spawn : ℚ
  lastShot : ℚ
  fireRate : ℚ
  spawnRate : ℚ
  asteroidSpeed : ℚ × ℚ
  shieldActive : Bool
  shieldTimer : ℚ
  alerts : List ℤ

/-- One tick's worth of `Math.random()` draws, each a value in `[0,1)`.
The polygon vertex offsets (`points`) are produced in the source by
real-valued trigonometry (`Math.cos`/`Math.sin`) and feed only the
renderer, so they are supplied directly; likewise `rotInit` stands for the
drawn initial rotation `Math.random() * Math.PI * 2`. -/
structure Draws where
  radius01 : ℚ
  x01 : ℚ
  vy01 : ℚ
  rotInit : ℚ
  rSpeed01 : ℚ
  points : List (ℚ × ℚ)
  boosterChance01 : ℚ
  boosterX01 : ℚ
  boosterType01 : ℚ

/-- One entry of the difficulty table (script.js lines 68-72). -/
structure DiffSet where
  asteroidSpeed : ℚ × ℚ
  spawnRate : ℚ
  fireRate : ℚ

/-- The property names every plain object literal inherits from
`Object.prototype`, so that `difficulty[d]` is defined (a function, or for
`__proto__` the prototype object) even though `d` is not one of the three
difficulty keys. -/
def objectPrototypeMembers : List String :=
  ["constructor", "hasOwnProperty", "isPrototypeOf", "propertyIsEnumerable",
   "toLocaleString", "toString", "valueOf", "__proto__",
   "__defineGetter__", "__defineSetter__", "__lookupGetter__", "__lookupSetter__"]

/-- Outcome of the JavaScript property lookup `difficulty[diff]`:
an own property (one of the three difficulty entries), an inherited
`Object.prototype` member (defined, but carrying none of the
`fireRate`/`spawnRate`/`asteroidSpeed` properties, so reading those on it
yields `undefined` without throwing), or `undefined`. -/
inductive Lookup where
  | own : DiffSet → Lookup
  | inherited : Lookup
  | undef : Lookup

/-- The difficulty table lookup (script.js lines 68-72, read at line 95):
the object literal's own keys first, then the prototype chain, then
`undefined`. -/
def difficulty (d : String) : Lookup :=
  if d == "easy" then Lookup.own ⟨(40, 60), 8/5, 250⟩
  else if d == "medium" then Lookup.own ⟨(60, 90), 1, 200⟩
  else if d == "hard" then Lookup.own ⟨(90, 130), 7/10, 150⟩
  else if objectPrototypeMembers.contains d then Lookup.inherited
  else Lookup.undef

/-- Outcome of `initGame(diff)`:
* `thrown s` — `difficulty[diff]` was `undefined`, so `set.fireRate`
  threw a TypeError before the parameter writes and before
  `running = true`; `s` is the state as mutated up to the throw.
* `started s` — the normal path: parameters assigned from the own entry,
  `running = true`, and `loop(performance.now())` invoked.
* `startedUndefined s` — `difficulty[diff]` was an inherited
  `Object.prototype` member: `set.fireRate`/`set.spawnRate`/
  `set.asteroidSpeed` all read as `undefined` without throwing, those
  three variables are assigned `undefined` (a JS value with no `ℚ`
  counterpart, so the carried state's rational fields for them are
  meaningless and no theorem reads them), `running = true` is reached,
  and the loop is invoked (its first tick then throws inside
  `spawnAsteroid` at `asteroidSpeed[0]`). -/
inductive InitResult where
  | thrown : GState → InitResult
  | started : GState → InitResult
  | startedUndefined : GState → InitResult

/-- `initGame(diff)` (script.js lines 77-103).  The assignments up to the
difficulty lookup always execute; what happens next depends on what the
property lookup returns (see `Lookup` and `InitResult`). -/
def initGame (cv : Canvas) (d : String) (s : GState) : InitResult :=
  let s1 : GState :=
    { s with
      player := { x := cv.width / 2, y := cv.height - 60, w := 36, h := 28 }
      bullets := []
      asteroids := []
      boosters := []
      score := 0
      spawn := 0
      lastShot := 0
      shieldActive := false
      shieldTimer := 0 }
  match difficulty d with
  | Lookup.undef => InitResult.thrown s1
  | Lookup.inherited => InitResult.startedUndefined { s1 with running := true }
  | Lookup.own set =>
      InitResult.started { s1 with
        fireRate := set.fireRate
        spawnRate := set.spawnRate
        asteroidSpeed := set.asteroidSpeed
        running := true }

/-- `spawnAsteroid()` (script.js lines 107-139), as a function of the
current asteroid speed range, the canvas width and the tick's draws. -/
def spawnAsteroid (W : ℚ) (speed : ℚ × ℚ) (rd : Draws) : Asteroid :=
  let radius : ℚ := 15 + rd.radius01 * 30
  { x := rd.x01 * W
    y := -40
    vy := speed.1 + rd.vy01 * (speed.2 - speed.1)
    rot := rd.rotInit
    rSpeed := (rd.rSpeed01 - 1/2) * (3/2)
    points := rd.points
    radius := radius
    hp := ⌈radius / 10⌉ }

/-- `spawnBooster()` (script.js lines 143-155). -/
def spawnBooster (W : ℚ) (rd : Draws) : Booster :=
  { x := 30 + rd.boosterX01 * (W - 60)
    y := -20
    vy := 100
    type := (["fireRate", "shield", "score"].getD (⌊rd.boosterType01 * 3⌋).toNat "")
    size := 12 }

/-- Stage (45)-(47): horizontal movement plus clamping to
`[10, c.width - 10 - player.w]`. -/
def movePlayer (inp : Input) (W dt : ℚ) (p : Player) : Player :=
  let x1 := if inp.keys "ArrowLeft" = true ∨ inp.keys "a" = true ∨ inp.touchLeft = true
            then p.x - 220 * dt else p.x
  let x2 := if inp.keys "ArrowRight" = true ∨ inp.keys "d" = true ∨ inp.touchRight = true
            then x1 + 220 * dt else x1
  { p with x := max 10 (min (W - 10 - p.w) x2) }

/-- Stage (48)-(50): rate-limited firing; `now` is the
`performance.now()` reading of this tick. -/
def fireStage (inp : Input) (now : ℚ) (s : GState) : GState :=
  if (inp.keys " " = true ∨ inp.keys "z" = true ∨ inp.touchFire = true) ∧
      now - s.lastShot > s.fireRate then
    { s with
      bullets := s.bullets ++ [{ x := s.player.x + s.player.w / 2, y := s.player.y, vy := -400 }]
      lastShot := now }
  else s

/-- Stage (51)-(52): bullet integration and off-screen removal. -/
def moveBullets (dt : ℚ) (bs : List Bullet) : List Bullet :=
  (bs.map fun b => { b with y := b.y + b.vy * dt }).filter fun b => decide (b.y > -10)

/-- Stage (53)-(55): spawn-timer decrement; on expiry reset the timer to
`spawnRate`, push a new asteroid, and with probability 0.2 a booster. -/
def spawnStage (cv : Canvas) (dt : ℚ) (rd : Draws) (s : GState) : GState :=
  let sp := s.spawn - dt
  if sp ≤ 0 then
    { s with
      spawn := s.spawnRate
      asteroids := s.asteroids ++ [spawnAsteroid cv.width s.asteroidSpeed rd]
      boosters := if rd.boosterChance01 < 1/5 then s.boosters ++ [spawnBooster cv.width rd]
                  else s.boosters }
  else { s with spawn := sp }

/-- Stage (56)-(57): asteroid integration and removal past the bottom. -/
def moveAsteroids (H dt : ℚ) (as : List Asteroid) : List Asteroid :=
  (as.map fun a => { a with y := a.y + a.vy * dt, rot := a.rot + a.rSpeed * dt }).filter
    fun a => decide (a.y < H + 40)

/-- Stage (58)-(59): booster integration and removal past the bottom. -/
def moveBoosters (H dt : ℚ) (bs : List Booster) : List Booster :=
  (bs.map fun b => { b with y := b.y + b.vy * dt }).filter fun b => decide (b.y < H + 20)

/-- The bullet-asteroid distance test of line 210:
`dx*dx + dy*dy < a.radius * a.radius * 0.6`. -/
def hitTest (a : Asteroid) (b : Bullet) : Prop :=
  let dx := a.x - b.x
  let dy := a.y - b.y
  dx * dx + dy * dy < a.radius * a.radius * (3/5)

instance (a : Asteroid) (b : Bullet) : Decidable (hitTest a b) := by
  unfold hitTest; infer_instance

/-- The inner loop of lines 205-227 scans bullets from the highest index
downward and stops at the first hit.  `removeLastHit a bs` returns the
bullet list with the highest-index bullet hitting `a` removed, or `none`
when no bullet hits `a`. -/
def removeLastHit (a : Asteroid) : List Bullet → Option (List Bullet)
  | [] => none
  | b :: bs =>
      match removeLastHit a bs with
      | some bs2 => some (b :: bs2)
      | none => if hitTest a b then some bs else none

/-- The parts of the state threaded through the combined collision loop of
lines 202-237. -/
structure PassSt where
  bullets : List Bullet
  score : ℤ
  running : Bool
  alerts : List ℤ

/-- The body of one iteration of the outer loop (lines 202-237) for the
asteroid `a`: first the bullet scan (hit ⇒ bullet consumed, `hp--`,
destruction at `hp ≤ 0` awards 10), then — on the same local `a`, whether
or not it was just destroyed — the asteroid-vs-player check, which on
overlap (shield inactive) clears `running` and raises the alert with the
current score.  Returns the surviving occurrences of `a` and the updated
threaded state. -/
def collideOne (sh : Bool) (p : Player) (a : Asteroid) (st : PassSt) :
    List Asteroid × PassSt :=
  let step1 : Asteroid × PassSt × Bool :=
    match removeLastHit a st.bullets with
    | some bs2 =>
        let a2 : Asteroid := { a with hp := a.hp - 1 }
        if a2.hp ≤ 0 then
          (a2, { st with bullets := bs2, score := st.score + 10 }, false)
        else
          (a2, { st with bullets := bs2 }, true)
    | none => (a, st, true)
  let a2 := step1.1
  let st2 := step1.2.1
  let kept := step1.2.2
  let st3 :=
    if sh = false ∧ |a2.x - (p.x + p.w / 2)| < a2.radius ∧
        |a2.y - (p.y + p.h / 2)| < a2.radius then
      { st2 with running := false, alerts := st2.alerts ++ [st2.score] }
    else st2
  (if kept then [a2] else [], st3)

/-- The outer loop of lines 202-237: asteroids are visited from the
highest index downward (so the list tail is processed first), removal is
at the current index only, and survivors keep their relative order. -/
def collidePass (sh : Bool) (p : Player) : List Asteroid → PassSt → List Asteroid × PassSt
  | [], st => ([], st)
  | a :: rest, st =>
      let r := collidePass sh p rest st
      let r2 := collideOne sh p a r.2
      (r2.1 ++ r.1, r2.2)

/-- Stages (60)-(73) applied to the whole state. -/
def collideStage (s : GState) : GState :=
  let r := collidePass s.shieldActive s.player s.asteroids
    { bullets := s.bullets, score := s.score, running := s.running, alerts := s.alerts }
  { s with
    asteroids := r.1
    bullets := r.2.bullets
    score := r.2.score
    running := r.2.running
    alerts := r.2.alerts }

/-- `applyBooster(type)` (script.js lines 260-267): three independent
string comparisons. -/
def applyBooster (t : String) (s : GState) : GState :=
  let s1 := if t == "fireRate" then { s with fireRate := max 80 (s.fireRate - 80) } else s
  let s2 := if t == "shield" then { s1 with shieldActive := true, shieldTimer := 5 } else s1
  if t == "score" then { s2 with score := s2.score + 50 } else s2

/-- The booster pickup loop of lines 241-250, visited from the highest
index downward; a picked booster applies its effect and is removed. -/
def pickupPass (p : Player) : List Booster → GState → List Booster × GState
  | [], s => ([], s)
  | b :: bs, s =>
      let r := pickupPass p bs s
      if |b.x - (p.x + p.w / 2)| < 20 ∧ |b.y - (p.y + p.h / 2)| < 20 then
        (r.1, applyBooster b.type r.2)
      else (b :: r.1, r.2)

/-- Stages (74)-(77) applied to the whole state. -/
def pickupStage (s : GState) : GState :=
  let r := pickupPass s.player s.boosters s
  { r.2 with boosters := r.1 }

/-- Stage (78): shield decay. -/
def shieldDecay (dt : ℚ) (s : GState) : GState :=
  if s.shieldActive = true then
    let t := s.shieldTimer - dt
    if t ≤ 0 then { s with shieldTimer := t, shieldActive := false }
    else { s with shieldTimer := t }
  else s

/-- All stages of `update(dt)` before the combined collision loop:
movement, firing, bullet/spawn/asteroid/booster integration. -/
def preCollide (cv : Canvas) (inp : Input) (now dt : ℚ) (rd : Draws) (s : GState) : GState :=
  let s1 := { s with player := movePlayer inp cv.width dt s.player }
  let s2 := fireStage inp now s1
  let s3 := { s2 with bullets := moveBullets dt s2.bullets }
  let s4 := spawnStage cv dt rd s3
  let s5 := { s4 with asteroids := moveAsteroids cv.height dt s4.asteroids }
  { s5 with boosters := moveBoosters cv.height dt s5.boosters }

/-- `update(dt)` (script.js lines 159-257): the full per-tick update. -/
def update (cv : Canvas) (inp : Input) (now dt : ℚ) (rd : Draws) (s : GState) : GState :=
  shieldDecay dt (pickupStage (collideStage (preCollide cv inp now dt rd s)))

/-- One scheduled tick of the frame loop: its input snapshot, its
`performance.now()` reading, its (already clamped) `dt`, and its draws. -/
structure Tick where
  inp : Input
  now : ℚ
  dt : ℚ
  rd : Draws

/-- Applying the Simulation Step for each tick of a list, in order. -/
def run (cv : Canvas) : List Tick → GState → GState
  | [], s => s
  | t :: ts, s => run cv ts (update cv t.inp t.now t.dt t.rd s)

/-- Total elapsed time of a tick list. -/
def sumDt : List Tick → ℚ
  | [] => 0
  | t :: ts => t.dt + sumDt ts

/-- Claim-C5 harness: repeatedly run the collision pass, each round
supplying exactly one freshly fired bullet positioned at the current
(head) asteroid's center, so that every round scores a hit. -/
def hitSequence (sh : Bool) (p : Player) : ℕ → List Asteroid → PassSt → List Asteroid × PassSt
  | 0, as, st => (as, st)
  | Nat.succ k, as, st =>
      match as with
      | [] => ([], st)
      | a :: _ =>
          let r := collidePass sh p as { st with bullets := [{ x := a.x, y := a.y, vy := -400 }] }
          hitSequence sh p k r.1 r.2

/-!
Model of the frame-scheduling machinery (script.js lines 330-364).

`requestAnimationFrame(loop)` registers one callback to run at the next
display refresh; all callbacks registered before a refresh run during it,
and callbacks they register run at the following refresh.  Button click
handlers run between refreshes on the same single-threaded event queue.
The model counts the pending registered callbacks (`pending`, the "frame
chains") and the number of Simulation Step invocations (`updates`); each
fired callback checks `running`, and if set performs one update/draw and
re-registers itself (lines 338-342). -/
structure LoopSt where
  running : Bool
  pending : ℕ
  updates : ℕ

/-- One registered `loop` callback firing (script.js lines 332-343): when
`running` holds it updates, draws and re-registers; otherwise it does
nothing and the chain dies. -/
def runCallback (s : LoopSt) : LoopSt :=
  if s.running then { s with updates := s.updates + 1, pending := s.pending + 1 } else s

/-- Fire `k` callbacks in sequence. -/
def fireAll : ℕ → LoopSt → LoopSt
  | 0, s => s
  | Nat.succ k, s => fireAll k (runCallback s)

/-- One display refresh: every callback registered before it fires;
re-registrations accumulate for the next refresh. -/
def refresh (s : LoopSt) : LoopSt :=
  fireAll s.pending { s with pending := 0 }

/-- The startBtn handler (lines 347-351): `initGame` sets `running = true`
and then calls `loop(performance.now())` synchronously, which (seeing
`running`) performs one update/draw and registers a callback — on top of
whatever callbacks were already pending. -/
def startClick (s : LoopSt) : LoopSt :=
  let s1 := { s with running := true }
  { s1 with updates := s1.updates + 1, pending := s1.pending + 1 }

/-- The restart handler (lines 361-364): `running = false` then
`initGame(...)`, all within one synchronous handler, so no pending
callback can observe the false flag in between. -/
def restartClick (s : LoopSt) : LoopSt :=
  startClick { s with running := false }

/-- The homeBtn handler (lines 354-358): stop without reinitializing. -/
def homeClick (s : LoopSt) : LoopSt :=
  { s with running := false }

/-! ### Concrete instantiations used by counterexamples and witnesses -/

def cvEx : Canvas := { width := 400, height := 600 }

/-- A fixed draw record (no booster: the 0.2-probability draw fails). -/

def rd0 : Draws :=
  { radius01 := 0
    x01 := 0
    vy01 := 0
    rotInit := 0
    rSpeed01 := 0
    points := []
    boosterChance01 := 1
    boosterX01 := 0
    boosterType01 := 0 }

/-- A concrete base state on the 400x600 canvas (ship slightly left of
center, easy-difficulty parameters). -/

def gs0 : GState :=
  { player := { x := 182, y := 540, w := 36, h := 28 }
    bullets := []
    asteroids := []
    boosters := []
    score := 0
    running := false
    spawn := 0
    lastShot := 0
    fireRate := 250
    spawnRate := 8/5
    asteroidSpeed := (40, 60)
    shieldActive := false
    shieldTimer := 0
    alerts := [] }

/-- Mid-run state for C1: two asteroids that both overlap the ship after
this tick's integration (ship center is (200, 554)). -/

def sC1 : GState :=
  { gs0 with
    running := true
    spawn := 1
    asteroids := [⟨200, 552, 50, 0, 0, [], 30, 3⟩, ⟨210, 548, 50, 0, 0, [], 30, 2⟩] }

/-- C1: the run-ending tick raises the terminal notification once per
overlapping obstacle — here twice in the single tick that ends the run —
contradicting "exactly once per run". -/

def sC2 : GState :=
  { gs0 with
    running := true
    spawn := 1
    asteroids := [⟨200, 554, 50, 0, 0, [], 30, 1⟩]
    bullets := [⟨200, 554, -400⟩] }

/-- C2 counterexample: in one tick the only asteroid is destroyed by the
projectile stage (list empties, score +10) and nevertheless the same
destroyed asteroid is tested against the ship and ends the run. -/

def aW2 : Asteroid := ⟨200, 554, 50, 0, 0, [], 30, 1⟩

def stW2 : PassSt := { bullets := [⟨200, 554, -400⟩], score := 0, running := true, alerts := [] }

def tick45 : Tick := { inp := noInput, now := 0, dt := 4/5, rd := rd0 }

def aC6 : Asteroid := ⟨200, 552, 50, 0, 0, [], 30, 3⟩

def s6a : GState :=
  { gs0 with
    running := true
    spawn := 1
    shieldActive := true
    shieldTimer := 3
    asteroids := [aC6] }

def s6b : GState :=
  { gs0 with
    running := true
    spawn := 1
    asteroids := [aC6] }

def aW5 : Asteroid := ⟨100, 100, 0, 0, 0, [], 30, 3⟩

def stW5 : PassSt := { bullets := [], score := 7, running := true, alerts := [] }

def s03 : GState :=
  { player := { x := cvEx.width / 2, y := cvEx.height - 60, w := 36, h := 28 }
    bullets := []
    asteroids := []
    boosters := []
    score := 0
    running := true
    spawn := 0
    lastShot := 0
    fireRate := 250
    spawnRate := 8/5
    asteroidSpeed := (40, 60)
    shieldActive := false
    shieldTimer := 0
    alerts := [] }

/-! ### Lemmas and claim theorems -/

theorem applyBooster_fields (t : String) (s : GState) :
    (applyBooster t s).player = s.player ∧ (applyBooster t s).bullets = s.bullets ∧
    (applyBooster t s).asteroids = s.asteroids ∧ (applyBooster t s).spawn = s.spawn ∧
    (applyBooster t s).spawnRate = s.spawnRate ∧ (applyBooster t s).running = s.running ∧
    (applyBooster t s).asteroidSpeed = s.asteroidSpeed ∧ (applyBooster t s).alerts = s.alerts := by
  unfold applyBooster
  dsimp only
  repeat' split
  all_goals exact ⟨rfl, rfl, rfl, rfl, rfl, rfl, rfl, rfl⟩

theorem pickupPass_fields (p : Player) (bs : List Booster) (s : GState) :
    (pickupPass p bs s).2.player = s.player ∧ (pickupPass p bs s).2.bullets = s.bullets ∧
    (pickupPass p bs s).2.asteroids = s.asteroids ∧ (pickupPass p bs s).2.spawn = s.spawn ∧
    (pickupPass p bs s).2.spawnRate = s.spawnRate ∧ (pickupPass p bs s).2.running = s.running ∧
    (pickupPass p bs s).2.asteroidSpeed = s.asteroidSpeed ∧ (pickupPass p bs s).2.alerts = s.alerts := by
  induction bs with
  | nil => exact ⟨rfl, rfl, rfl, rfl, rfl, rfl, rfl, rfl⟩
  | cons b rest ih =>
      simp only [pickupPass]
      split
      · obtain ⟨h1, h2, h3, h4, h5, h6, h7, h8⟩ := ih
        obtain ⟨g1, g2, g3, g4, g5, g6, g7, g8⟩ := applyBooster_fields b.type (pickupPass p rest s).2
        exact ⟨g1.trans h1, g2.trans h2, g3.trans h3, g4.trans h4, g5.trans h5,
               g6.trans h6, g7.trans h7, g8.trans h8⟩
      · exact ih

theorem pickupStage_fields (s : GState) :
    (pickupStage s).player = s.player ∧ (pickupStage s).bullets = s.bullets ∧
    (pickupStage s).asteroids = s.asteroids ∧ (pickupStage s).spawn = s.spawn ∧
    (pickupStage s).spawnRate = s.spawnRate ∧ (pickupStage s).running = s.running ∧
    (pickupStage s).asteroidSpeed = s.asteroidSpeed ∧ (pickupStage s).alerts = s.alerts := by
  unfold pickupStage
  exact pickupPass_fields s.player s.boosters s

theorem shieldDecay_fields (dt : ℚ) (s : GState) :
    (shieldDecay dt s).player = s.player ∧ (shieldDecay dt s).bullets = s.bullets ∧
    (shieldDecay dt s).asteroids = s.asteroids ∧ (shieldDecay dt s).spawn = s.spawn ∧
    (shieldDecay dt s).spawnRate = s.spawnRate ∧ (shieldDecay dt s).running = s.running ∧
    (shieldDecay dt s).asteroidSpeed = s.asteroidSpeed ∧ (shieldDecay dt s).alerts = s.alerts := by
  unfold shieldDecay
  dsimp only
  repeat' split
  all_goals exact ⟨rfl, rfl, rfl, rfl, rfl, rfl, rfl, rfl⟩

theorem fireStage_fields (inp : Input) (now : ℚ) (s : GState) :
    (fireStage inp now s).player = s.player ∧ (fireStage inp now s).asteroids = s.asteroids ∧
    (fireStage inp now s).spawn = s.spawn ∧ (fireStage inp now s).spawnRate = s.spawnRate ∧
    (fireStage inp now s).running = s.running ∧ (fireStage inp now s).shieldActive = s.shieldActive ∧
    (fireStage inp now s).asteroidSpeed = s.asteroidSpeed ∧ (fireStage inp now s).boosters = s.boosters := by
  unfold fireStage
  split
  all_goals exact ⟨rfl, rfl, rfl, rfl, rfl, rfl, rfl, rfl⟩

theorem spawnStage_fields (cv : Canvas) (dt : ℚ) (rd : Draws) (s : GState) :
    (spawnStage cv dt rd s).player = s.player ∧ (spawnStage cv dt rd s).bullets = s.bullets ∧
    (spawnStage cv dt rd s).spawnRate = s.spawnRate ∧ (spawnStage cv dt rd s).running = s.running ∧
    (spawnStage cv dt rd s).shieldActive = s.shieldActive ∧
    (spawnStage cv dt rd s).asteroidSpeed = s.asteroidSpeed := by
  unfold spawnStage
  dsimp only
  repeat' split
  all_goals exact ⟨rfl, rfl, rfl, rfl, rfl, rfl⟩

theorem collideStage_fields (s : GState) :
    (collideStage s).player = s.player ∧ (collideStage s).spawn = s.spawn ∧
    (collideStage s).spawnRate = s.spawnRate ∧ (collideStage s).shieldActive = s.shieldActive ∧
    (collideStage s).asteroidSpeed = s.asteroidSpeed ∧ (collideStage s).boosters = s.boosters := by
  exact ⟨rfl, rfl, rfl, rfl, rfl, rfl⟩

theorem preCollide_player (cv : Canvas) (inp : Input) (now dt : ℚ) (rd : Draws) (s : GState) :
    (preCollide cv inp now dt rd s).player = movePlayer inp cv.width dt s.player := by
  simp only [preCollide]
  rw [(spawnStage_fields cv dt rd _).1]
  simp only []
  rw [(fireStage_fields inp now _).1]

theorem update_player (cv : Canvas) (inp : Input) (now dt : ℚ) (rd : Draws) (s : GState) :
    (update cv inp now dt rd s).player = movePlayer inp cv.width dt s.player := by
  unfold update
  rw [(shieldDecay_fields dt _).1, (pickupStage_fields _).1, (collideStage_fields _).1,
      preCollide_player]

theorem update_player_w (cv : Canvas) (inp : Input) (now dt : ℚ) (rd : Draws) (s : GState) :
    (update cv inp now dt rd s).player.w = s.player.w := by
  rw [update_player]
  rfl

theorem run_player_w (cv : Canvas) (ts : List Tick) (s : GState) :
    (run cv ts s).player.w = s.player.w := by
  induction ts generalizing s with
  | nil => rfl
  | cons t rest ih =>
      simp only [run]
      rw [ih, update_player_w]

theorem update_x_bounds (cv : Canvas) (inp : Input) (now dt : ℚ) (rd : Draws) (s : GState)
    (hw : 20 + s.player.w ≤ cv.width) :
    10 ≤ (update cv inp now dt rd s).player.x ∧
    (update cv inp now dt rd s).player.x ≤ cv.width - 10 - s.player.w := by
  rw [update_player]
  unfold movePlayer
  dsimp only
  constructor
  · exact le_max_left _ _
  · exact max_le (by linarith) (min_le_left _ _)

/-- C4: after every Simulation Step of any sequence, the ship's x
coordinate lies within `[10, c.width - 10 - player.w]`. -/

theorem c4_ship_stays_clamped (cv : Canvas) (t : Tick) (ts : List Tick) (s : GState)
    (hw : 20 + s.player.w ≤ cv.width) :
    10 ≤ (run cv (t :: ts) s).player.x ∧
    (run cv (t :: ts) s).player.x ≤ cv.width - 10 - (run cv (t :: ts) s).player.w := by
  rw [show (run cv (t :: ts) s).player.w = s.player.w from run_player_w cv (t :: ts) s]
  induction ts generalizing t s with
  | nil => exact update_x_bounds cv t.inp t.now t.dt t.rd s hw
  | cons t2 ts2 ih =>
      have hw2 : 20 + (update cv t.inp t.now t.dt t.rd s).player.w ≤ cv.width := by
        rw [update_player_w]; exact hw
      have := ih t2 (update cv t.inp t.now t.dt t.rd s) hw2
      rw [update_player_w] at this
      exact this

/-- C10: a Simulation Step never changes the ship's y, width or height;
only the horizontal coordinate is mutated. -/

theorem c10_ship_only_x_mutated (cv : Canvas) (inp : Input) (now dt : ℚ) (rd : Draws) (s : GState) :
    (update cv inp now dt rd s).player.y = s.player.y ∧
    (update cv inp now dt rd s).player.w = s.player.w ∧
    (update cv inp now dt rd s).player.h = s.player.h := by
  refine ⟨?_, ?_, ?_⟩ <;> rw [update_player] <;> rfl

theorem applyBooster_fireRate_eq (s : GState) :
    applyBooster "fireRate" s = { s with fireRate := max 80 (s.fireRate - 80) } := rfl

/-- C7: k fireRate pickups from base interval B leave max(80, B - 80k). -/

theorem c7_fireRate_saturates (s : GState) (k : ℕ) (h : 80 ≤ s.fireRate) :
    ((fun st => applyBooster "fireRate" st)^[k] s).fireRate = max 80 (s.fireRate - 80 * k) := by
  induction k generalizing s with
  | zero =>
      simp only [Function.iterate_zero, id_eq, Nat.cast_zero, mul_zero, sub_zero]
      exact (max_eq_right h).symm
  | succ k ih =>
      rw [Function.iterate_succ_apply, applyBooster_fireRate_eq,
          ih { s with fireRate := max 80 (s.fireRate - 80) } (le_max_left _ _)]
      have hk : (0:ℚ) ≤ 80 * k := by positivity
      have h1 : max 80 (s.fireRate - 80) - 80 * (k:ℚ)
          = max (80 - 80 * (k:ℚ)) (s.fireRate - 80 - 80 * (k:ℚ)) :=
        (max_sub_sub_right _ _ _).symm
      rw [show ({ s with fireRate := max 80 (s.fireRate - 80) } : GState).fireRate
            = max 80 (s.fireRate - 80) from rfl, h1, ← max_assoc,
          max_eq_left (by linarith : 80 - 80 * (k:ℚ) ≤ 80)]
      congr 1
      push_cast
      ring

/-- C9 counterexample: `"toString"` is outside the fixed difficulty set,
yet the start is not rejected — `difficulty["toString"]` resolves to the
inherited `Object.prototype.toString`, reading `.fireRate` on it yields
`undefined` without throwing, and `running = true` is reached. -/
theorem c9_counterexample_prototype_member_starts_run :
    "toString" ≠ "easy" ∧ "toString" ≠ "medium" ∧ "toString" ≠ "hard" ∧
    difficulty "toString" = Lookup.inherited ∧
    ∃ s2 : GState, initGame cvEx "toString" gs0 = InitResult.startedUndefined s2 ∧
      s2.running = true := by
  exact ⟨by decide, by decide, by decide, rfl, _, rfl, rfl⟩

/-- C9 amended: an identifier outside the fixed set fails fast only when
it also names no inherited `Object.prototype` member: then the lookup is
`undefined`, `set.fireRate` throws before the parameter writes, and the
running flag is untouched.  For an identifier naming an inherited member
the request is not rejected: the parameter reads yield `undefined`
silently and the running flag becomes true (the first scheduled tick then
throws inside `spawnAsteroid`). -/
theorem c9_amended_fail_fast_off_prototype :
    (∀ (cv : Canvas) (d : String) (s : GState), difficulty d = Lookup.undef →
        ∃ s2 : GState, initGame cv d s = InitResult.thrown s2 ∧ s2.running = s.running ∧
          s2.fireRate = s.fireRate ∧ s2.spawnRate = s.spawnRate ∧
          s2.asteroidSpeed = s.asteroidSpeed) ∧
    (∀ (cv : Canvas) (d : String) (s : GState), difficulty d = Lookup.inherited →
        ∃ s2 : GState, initGame cv d s = InitResult.startedUndefined s2 ∧
          s2.running = true) := by
  constructor
  · intro cv d s hd
    simp only [initGame, hd]
    exact ⟨_, rfl, rfl, rfl, rfl, rfl⟩
  · intro cv d s hd
    simp only [initGame, hd]
    exact ⟨_, rfl, rfl⟩

theorem collideOne_running_mono (sh : Bool) (p : Player) (a : Asteroid) (st : PassSt)
    (h : st.running = false) : (collideOne sh p a st).2.running = false := by
  unfold collideOne
  dsimp only
  cases hrm : removeLastHit a st.bullets with
  | none =>
      dsimp only
      split
      · rfl
      · exact h
  | some bs2 =>
      dsimp only
      split
      · split
        · rfl
        · exact h
      · split
        · rfl
        · exact h

theorem collideOne_running_shield (p : Player) (a : Asteroid) (st : PassSt) :
    (collideOne true p a st).2.running = st.running := by
  unfold collideOne
  dsimp only
  cases hrm : removeLastHit a st.bullets with
  | none =>
      dsimp only
      rw [if_neg]
      simp only [reduceCtorEq, false_and, not_false_eq_true]
  | some bs2 =>
      dsimp only
      split
      · rw [if_neg]
        simp only [reduceCtorEq, false_and, not_false_eq_true]
      · rw [if_neg]
        simp only [reduceCtorEq, false_and, not_false_eq_true]

theorem collideOne_running_overlap (p : Player) (a : Asteroid) (st : PassSt)
    (hx : |a.x - (p.x + p.w / 2)| < a.radius) (hy : |a.y - (p.y + p.h / 2)| < a.radius) :
    (collideOne false p a st).2.running = false := by
  unfold collideOne
  dsimp only
  cases hrm : removeLastHit a st.bullets with
  | none =>
      dsimp only
      rw [if_pos ⟨rfl, hx, hy⟩]
  | some bs2 =>
      dsimp only
      split
      · rw [if_pos ⟨rfl, hx, hy⟩]
      · rw [if_pos ⟨rfl, hx, hy⟩]

theorem collidePass_running_shield (p : Player) (as : List Asteroid) (st : PassSt) :
    (collidePass true p as st).2.running = st.running := by
  induction as with
  | nil => rfl
  | cons a rest ih =>
      simp only [collidePass]
      rw [collideOne_running_shield, ih]

theorem collidePass_running_mono (sh : Bool) (p : Player) (as : List Asteroid) (st : PassSt)
    (h : st.running = false) : (collidePass sh p as st).2.running = false := by
  induction as with
  | nil => exact h
  | cons a rest ih =>
      simp only [collidePass]
      exact collideOne_running_mono sh p a _ ih

theorem collidePass_running_overlap (p : Player) (as : List Asteroid) (st : PassSt)
    (a : Asteroid) (ha : a ∈ as)
    (hx : |a.x - (p.x + p.w / 2)| < a.radius) (hy : |a.y - (p.y + p.h / 2)| < a.radius) :
    (collidePass false p as st).2.running = false := by
  induction as with
  | nil => cases ha
  | cons b rest ih =>
      rcases List.mem_cons.mp ha with h | h
      · subst h
        simp only [collidePass]
        exact collideOne_running_overlap p a _ hx hy
      · simp only [collidePass]
        exact collideOne_running_mono _ p b _ (ih h)

theorem collideStage_running (s : GState) :
    (collideStage s).running =
      (collidePass s.shieldActive s.player s.asteroids
        { bullets := s.bullets, score := s.score, running := s.running, alerts := s.alerts }).2.running := rfl

theorem preCollide_shieldActive (cv : Canvas) (inp : Input) (now dt : ℚ) (rd : Draws) (s : GState) :
    (preCollide cv inp now dt rd s).shieldActive = s.shieldActive := by
  simp only [preCollide]
  rw [(spawnStage_fields cv dt rd _).2.2.2.2.1]
  simp only []
  rw [(fireStage_fields inp now _).2.2.2.2.2.1]

theorem preCollide_running (cv : Canvas) (inp : Input) (now dt : ℚ) (rd : Draws) (s : GState) :
    (preCollide cv inp now dt rd s).running = s.running := by
  simp only [preCollide]
  rw [(spawnStage_fields cv dt rd _).2.2.2.1]
  simp only []
  rw [(fireStage_fields inp now _).2.2.2.2.1]

/-- C6: the shield gates the lethal collision — with the shield active no
overlap ends the run in that tick; with it inactive, any obstacle whose
center lies within its radius of the ship's center on both axes (at the
positions the collision loop tests, i.e. after this tick's integration)
ends the run in that tick. -/

theorem c6_shield_gates_death :
    (∀ (cv : Canvas) (inp : Input) (now dt : ℚ) (rd : Draws) (s : GState),
        s.shieldActive = true → (update cv inp now dt rd s).running = s.running) ∧
    (∀ (cv : Canvas) (inp : Input) (now dt : ℚ) (rd : Draws) (s : GState),
        s.shieldActive = false →
        (∃ a ∈ (preCollide cv inp now dt rd s).asteroids,
            |a.x - ((preCollide cv inp now dt rd s).player.x +
                (preCollide cv inp now dt rd s).player.w / 2)| < a.radius ∧
            |a.y - ((preCollide cv inp now dt rd s).player.y +
                (preCollide cv inp now dt rd s).player.h / 2)| < a.radius) →
        (update cv inp now dt rd s).running = false) := by
  constructor
  · intro cv inp now dt rd s hsh
    unfold update
    rw [(shieldDecay_fields dt _).2.2.2.2.2.1, (pickupStage_fields _).2.2.2.2.2.1,
        collideStage_running, preCollide_shieldActive, hsh,
        collidePass_running_shield, preCollide_running]
  · intro cv inp now dt rd s hsh ⟨a, ha, hx, hy⟩
    unfold update
    rw [(shieldDecay_fields dt _).2.2.2.2.2.1, (pickupStage_fields _).2.2.2.2.2.1,
        collideStage_running, preCollide_shieldActive, hsh]
    exact collidePass_running_overlap _ _ _ a ha hx hy



/-- A 400x600 canvas, as a typical concrete instantiation. -/

theorem c1_alert_raised_twice_in_one_tick :
    (update cvEx noInput 0 (1/25) rd0 sC1).running = false ∧
    (update cvEx noInput 0 (1/25) rd0 sC1).alerts.length = 2 := by
  norm_num [update, preCollide, movePlayer, fireStage, moveBullets, spawnStage,
    moveAsteroids, moveBoosters, collideStage, collidePass, collideOne, removeLastHit,
    hitTest, pickupStage, pickupPass, applyBooster, shieldDecay, sC1, gs0, cvEx, rd0, noInput]

/-- Mid-run state for C2: a single asteroid with 1 hp overlapping the
ship, and a bullet that will hit it this tick. -/

theorem c2_counterexample_destroyed_asteroid_kills :
    (update cvEx noInput 0 (1/25) rd0 sC2).asteroids = [] ∧
    (update cvEx noInput 0 (1/25) rd0 sC2).score = 10 ∧
    (update cvEx noInput 0 (1/25) rd0 sC2).running = false := by
  norm_num [update, preCollide, movePlayer, fireStage, moveBullets, spawnStage,
    moveAsteroids, moveBoosters, collideStage, collidePass, collideOne, removeLastHit,
    hitTest, pickupStage, pickupPass, applyBooster, shieldDecay, sC2, gs0, cvEx, rd0, noInput]

/-- C2 amended: the obstacle-ship check runs on every obstacle scanned in
the tick, including one just destroyed in the projectile stage of the same
iteration; a destroyed obstacle overlapping the ship still ends the run. -/

theorem c2_amended_destroyed_obstacle_still_checked (p : Player) (a : Asteroid) (st : PassSt)
    (hdead : a.hp ≤ 1) (hhit : (removeLastHit a st.bullets).isSome = true)
    (hx : |a.x - (p.x + p.w / 2)| < a.radius) (hy : |a.y - (p.y + p.h / 2)| < a.radius) :
    (collidePass false p [a] st).1 = [] ∧ (collidePass false p [a] st).2.running = false := by
  obtain ⟨bs2, hbs⟩ := Option.isSome_iff_exists.mp hhit
  have h1 : a.hp - 1 ≤ 0 := by linarith
  simp only [collidePass, collideOne, hbs]
  simp [h1, hx, hy]

theorem c2_amended_witness :
    aW2.hp ≤ 1 ∧ (removeLastHit aW2 stW2.bullets).isSome = true ∧
    (collidePass false gs0.player [aW2] stW2).1 = [] ∧
    (collidePass false gs0.player [aW2] stW2).2.running = false := by
  refine ⟨by norm_num [aW2], ?_, ?_, ?_⟩
  · norm_num [removeLastHit, hitTest, aW2, stW2]
  · exact (c2_amended_destroyed_obstacle_still_checked gs0.player aW2 stW2
      (by norm_num [aW2]) (by norm_num [removeLastHit, hitTest, aW2, stW2])
      (by norm_num [aW2, gs0]) (by norm_num [aW2, gs0])).1
  · exact (c2_amended_destroyed_obstacle_still_checked gs0.player aW2 stW2
      (by norm_num [aW2]) (by norm_num [removeLastHit, hitTest, aW2, stW2])
      (by norm_num [aW2, gs0]) (by norm_num [aW2, gs0])).2

/-- C8: trace start → refresh → restart-click → refresh.  The restart sets
the flag false and back to true within one synchronous handler while a
frame callback is still registered, so after the restart two frame chains
are pending and the next display refresh performs two Simulation Steps
instead of one. -/

theorem c8_restart_leaves_two_frame_chains :
    (restartClick (refresh (startClick ⟨false, 0, 0⟩))).pending = 2 ∧
    (refresh (restartClick (refresh (startClick ⟨false, 0, 0⟩)))).updates -
      (restartClick (refresh (startClick ⟨false, 0, 0⟩))).updates = 2 ∧
    (refresh (homeClick (refresh (startClick ⟨false, 0, 0⟩)))).updates =
      (homeClick (refresh (startClick ⟨false, 0, 0⟩))).updates := by
  decide



/-- A 0.8-second no-input tick. -/

theorem c4_witness :
    20 + gs0.player.w ≤ cvEx.width ∧
    10 ≤ (run cvEx [tick45] gs0).player.x ∧
    (run cvEx [tick45] gs0).player.x ≤ cvEx.width - 10 - (run cvEx [tick45] gs0).player.w := by
  refine ⟨by norm_num [gs0, cvEx], ?_, ?_⟩
  · exact (c4_ship_stays_clamped cvEx tick45 [] gs0 (by norm_num [gs0, cvEx])).1
  · exact (c4_ship_stays_clamped cvEx tick45 [] gs0 (by norm_num [gs0, cvEx])).2

theorem c6_witness :
    s6a.shieldActive = true ∧ (update cvEx noInput 0 (1/25) rd0 s6a).running = s6a.running ∧
    s6b.shieldActive = false ∧ (update cvEx noInput 0 (1/25) rd0 s6b).running = false := by
  refine ⟨rfl, c6_shield_gates_death.1 cvEx noInput 0 (1/25) rd0 s6a rfl, rfl,
    c6_shield_gates_death.2 cvEx noInput 0 (1/25) rd0 s6b rfl ?_⟩
  norm_num [preCollide, movePlayer, fireStage, moveBullets, spawnStage, moveAsteroids,
    moveBoosters, s6b, gs0, aC6, cvEx, rd0, noInput]

theorem c7_witness :
    (80:ℚ) ≤ gs0.fireRate ∧
    ((fun st => applyBooster "fireRate" st)^[3] gs0).fireRate = max 80 (gs0.fireRate - 80 * (3:ℕ)) :=
  ⟨by norm_num [gs0], c7_fireRate_saturates gs0 3 (by norm_num [gs0])⟩

theorem c9_amended_witness :
    difficulty "ultra" = Lookup.undef ∧ difficulty "valueOf" = Lookup.inherited ∧
    (∃ s2 : GState, initGame cvEx "ultra" gs0 = InitResult.thrown s2 ∧
      s2.running = gs0.running ∧ s2.fireRate = gs0.fireRate ∧
      s2.spawnRate = gs0.spawnRate ∧ s2.asteroidSpeed = gs0.asteroidSpeed) ∧
    (∃ s2 : GState, initGame cvEx "valueOf" gs0 = InitResult.startedUndefined s2 ∧
      s2.running = true) :=
  ⟨rfl, rfl, c9_amended_fail_fast_off_prototype.1 cvEx "ultra" gs0 rfl,
   c9_amended_fail_fast_off_prototype.2 cvEx "valueOf" gs0 rfl⟩

theorem hitTest_center (a : Asteroid) (h : 0 < a.radius) :
    hitTest a { x := a.x, y := a.y, vy := -400 } := by
  unfold hitTest
  dsimp only
  have hp : (0:ℚ) < a.radius * a.radius * (3/5) := by positivity
  simpa using hp

theorem removeLastHit_single (a : Asteroid) (b : Bullet) (h : hitTest a b) :
    removeLastHit a [b] = some [] := by
  simp only [removeLastHit]
  rw [if_pos h]

theorem collidePass_single_surv (sh : Bool) (p : Player) (a : Asteroid) (st : PassSt)
    (hb : removeLastHit a st.bullets = some []) (hlive : ¬ a.hp - 1 ≤ 0) :
    (collidePass sh p [a] st).1 = [{ a with hp := a.hp - 1 }] ∧
    (collidePass sh p [a] st).2.score = st.score := by
  simp only [collidePass, collideOne, hb]
  constructor
  · simp [hlive]
  · simp only [if_neg hlive]
    split <;> rfl

theorem collidePass_single_dead (sh : Bool) (p : Player) (a : Asteroid) (st : PassSt)
    (hb : removeLastHit a st.bullets = some []) (hdead : a.hp - 1 ≤ 0) :
    (collidePass sh p [a] st).1 = [] ∧
    (collidePass sh p [a] st).2.score = st.score + 10 := by
  simp only [collidePass, collideOne, hb]
  constructor
  · simp [hdead]
  · simp only [if_pos hdead]
    split <;> rfl

theorem hitSequence_live (sh : Bool) (p : Player) (a : Asteroid) (hr : 0 < a.radius) :
    ∀ (k : ℕ) (m : ℤ) (st : PassSt), (k : ℤ) < m →
      (hitSequence sh p k [{ a with hp := m }] st).1 = [{ a with hp := m - k }] ∧
      (hitSequence sh p k [{ a with hp := m }] st).2.score = st.score := by
  intro k
  induction k with
  | zero =>
      intro m st _
      simp only [hitSequence, Nat.cast_zero, sub_zero]
      exact ⟨trivial, trivial⟩
  | succ k ih =>
      intro m st hk
      have h2 : ¬ (({ a with hp := m } : Asteroid).hp - 1 ≤ 0) := by
        dsimp only
        push_cast at hk
        omega
      have hht : hitTest { a with hp := m }
          { x := ({ a with hp := m } : Asteroid).x, y := ({ a with hp := m } : Asteroid).y, vy := -400 } :=
        hitTest_center _ hr
      have hb : removeLastHit { a with hp := m }
          [{ x := ({ a with hp := m } : Asteroid).x, y := ({ a with hp := m } : Asteroid).y, vy := -400 }] =
          some [] := removeLastHit_single _ _ hht
      simp only [hitSequence]
      obtain ⟨e1, e2⟩ := collidePass_single_surv sh p { a with hp := m }
        { st with bullets := [{ x := ({ a with hp := m } : Asteroid).x,
                                y := ({ a with hp := m } : Asteroid).y, vy := -400 }] } hb h2
      rw [e1]
      have hk2 : (k : ℤ) < m - 1 := by push_cast at hk ⊢; omega
      obtain ⟨f1, f2⟩ := ih (m - 1)
        (collidePass sh p [{ a with hp := m }]
          { st with bullets := [{ x := ({ a with hp := m } : Asteroid).x,
                                  y := ({ a with hp := m } : Asteroid).y, vy := -400 }] }).2 hk2
      constructor
      · rw [show ({ a with hp := m } : Asteroid).hp - 1 = m - 1 from rfl] at f1 ⊢
        rw [f1]
        have : m - 1 - (k : ℤ) = m - ((k : ℕ) + 1 : ℕ) := by push_cast; ring
        rw [this]
      · rw [show ({ a with hp := m } : Asteroid).hp - 1 = m - 1 from rfl] at f2 ⊢
        rw [f2, e2]

theorem hitSequence_kill (sh : Bool) (p : Player) (a : Asteroid) (hr : 0 < a.radius) :
    ∀ (k : ℕ) (m : ℤ) (st : PassSt), m = k + 1 →
      (hitSequence sh p (k + 1) [{ a with hp := m }] st).1 = [] ∧
      (hitSequence sh p (k + 1) [{ a with hp := m }] st).2.score = st.score + 10 := by
  intro k
  induction k with
  | zero =>
      intro m st hm
      have hdead : ({ a with hp := m } : Asteroid).hp - 1 ≤ 0 := by dsimp only; omega
      have hht : hitTest { a with hp := m }
          { x := ({ a with hp := m } : Asteroid).x, y := ({ a with hp := m } : Asteroid).y, vy := -400 } :=
        hitTest_center _ hr
      have hb : removeLastHit { a with hp := m }
          [{ x := ({ a with hp := m } : Asteroid).x, y := ({ a with hp := m } : Asteroid).y, vy := -400 }] =
          some [] := removeLastHit_single _ _ hht
      simp only [hitSequence]
      obtain ⟨e1, e2⟩ := collidePass_single_dead sh p { a with hp := m }
        { st with bullets := [{ x := ({ a with hp := m } : Asteroid).x,
                                y := ({ a with hp := m } : Asteroid).y, vy := -400 }] } hb hdead
      rw [e1]
      simp only [hitSequence]
      exact ⟨trivial, e2⟩
  | succ k ih =>
      intro m st hm
      have hlive : ¬ (({ a with hp := m } : Asteroid).hp - 1 ≤ 0) := by
        dsimp only; push_cast at hm; omega
      have hht : hitTest { a with hp := m }
          { x := ({ a with hp := m } : Asteroid).x, y := ({ a with hp := m } : Asteroid).y, vy := -400 } :=
        hitTest_center _ hr
      have hb : removeLastHit { a with hp := m }
          [{ x := ({ a with hp := m } : Asteroid).x, y := ({ a with hp := m } : Asteroid).y, vy := -400 }] =
          some [] := removeLastHit_single _ _ hht
      rw [show k + 1 + 1 = (k + 1) + 1 from rfl]
      simp only [hitSequence]
      obtain ⟨e1, e2⟩ := collidePass_single_surv sh p { a with hp := m }
        { st with bullets := [{ x := ({ a with hp := m } : Asteroid).x,
                                y := ({ a with hp := m } : Asteroid).y, vy := -400 }] } hb hlive
      rw [e1]
      have hm2 : m - 1 = (k : ℤ) + 1 := by push_cast at hm ⊢; omega
      obtain ⟨f1, f2⟩ := ih (m - 1)
        (collidePass sh p [{ a with hp := m }]
          { st with bullets := [{ x := ({ a with hp := m } : Asteroid).x,
                                  y := ({ a with hp := m } : Asteroid).y, vy := -400 }] }).2 hm2
      rw [show ({ a with hp := m } : Asteroid).hp - 1 = m - 1 from rfl] at f1 f2 ⊢
      exact ⟨f1, f2.trans (by rw [e2])⟩



/-- C5: an obstacle with n hit-points is destroyed after exactly n single
projectile hits — after k < n hits it is alive with hp = n - k and the
score untouched; the n-th hit removes it and adds exactly 10 — and in any
single collision pass its hp drops by at most one. -/

theorem c5_n_hits_destroy (sh : Bool) (p : Player) (a : Asteroid) (n : ℕ) (st : PassSt)
    (hhp : a.hp = (n : ℤ)) (hr : 0 < a.radius) (hn : 1 ≤ n) :
    (∀ k : ℕ, k < n →
        (hitSequence sh p k [a] st).1 = [{ a with hp := (n : ℤ) - k }] ∧
        (hitSequence sh p k [a] st).2.score = st.score) ∧
    (hitSequence sh p n [a] st).1 = [] ∧
    (hitSequence sh p n [a] st).2.score = st.score + 10 ∧
    (∀ st2 : PassSt, ∀ x ∈ (collidePass sh p [a] st2).1, a.hp - 1 ≤ x.hp ∧ x.hp ≤ a.hp) := by
  have ha : ({ a with hp := (n : ℤ) } : Asteroid) = a := by rw [← hhp]
  refine ⟨?_, ?_, ?_, ?_⟩
  · intro k hk
    have h := hitSequence_live sh p a hr k (n : ℤ) st (by exact_mod_cast hk)
    rw [ha] at h
    exact h
  · obtain ⟨k, rfl⟩ : ∃ k, n = k + 1 := ⟨n - 1, by omega⟩
    have h := hitSequence_kill sh p a hr k ((k + 1 : ℕ) : ℤ) st (by push_cast; ring)
    rw [ha] at h
    exact h.1
  · obtain ⟨k, rfl⟩ : ∃ k, n = k + 1 := ⟨n - 1, by omega⟩
    have h := hitSequence_kill sh p a hr k ((k + 1 : ℕ) : ℤ) st (by push_cast; ring)
    rw [ha] at h
    exact h.2
  · intro st2 x hx
    simp only [collidePass, collideOne] at hx
    cases hrm : removeLastHit a st2.bullets with
    | none =>
        simp [hrm] at hx
        subst hx
        exact ⟨by omega, le_refl _⟩
    | some bs2 =>
        by_cases hc : a.hp - 1 ≤ 0
        · simp [hrm, hc] at hx
        · simp [hrm, hc] at hx
          subst hx
          refine ⟨le_refl _, ?_⟩
          dsimp only
          omega

theorem c5_witness :
    aW5.hp = ((3:ℕ) : ℤ) ∧ 0 < aW5.radius ∧
    (hitSequence false gs0.player 3 [aW5] stW5).1 = [] ∧
    (hitSequence false gs0.player 3 [aW5] stW5).2.score = stW5.score + 10 := by
  refine ⟨by norm_num [aW5], by norm_num [aW5], ?_, ?_⟩
  · exact (c5_n_hits_destroy false gs0.player aW5 3 stW5 (by norm_num [aW5])
      (by norm_num [aW5]) (by norm_num)).2.1
  · exact (c5_n_hits_destroy false gs0.player aW5 3 stW5 (by norm_num [aW5])
      (by norm_num [aW5]) (by norm_num)).2.2.1

theorem collideOne_no_bullets (sh : Bool) (p : Player) (a : Asteroid) (st : PassSt)
    (hb : st.bullets = []) :
    (collideOne sh p a st).1 = [a] ∧ (collideOne sh p a st).2.bullets = [] := by
  unfold collideOne
  rw [hb]
  dsimp only [removeLastHit]
  constructor
  · rfl
  · split <;> exact hb

theorem collidePass_no_bullets (sh : Bool) (p : Player) (as : List Asteroid) (st : PassSt)
    (hb : st.bullets = []) :
    (collidePass sh p as st).1 = as ∧ (collidePass sh p as st).2.bullets = [] := by
  induction as with
  | nil => exact ⟨rfl, hb⟩
  | cons a rest ih =>
      obtain ⟨ih1, ih2⟩ := ih
      obtain ⟨g1, g2⟩ := collideOne_no_bullets sh p a (collidePass sh p rest st).2 ih2
      simp only [collidePass]
      exact ⟨by rw [g1, ih1]; rfl, g2⟩

theorem collideStage_no_bullets (s : GState) (hb : s.bullets = []) :
    (collideStage s).asteroids = s.asteroids ∧ (collideStage s).bullets = [] := by
  obtain ⟨h1, h2⟩ := collidePass_no_bullets s.shieldActive s.player s.asteroids
    { bullets := s.bullets, score := s.score, running := s.running, alerts := s.alerts } hb
  exact ⟨h1, h2⟩

theorem fireStage_noInput (now : ℚ) (s : GState) : fireStage noInput now s = s := by
  unfold fireStage
  rw [if_neg]
  rintro ⟨h, _⟩
  rcases h with h | h | h <;> simp [noInput] at h

theorem spawnStage_noSpawn (cv : Canvas) (dt : ℚ) (rd : Draws) (s : GState)
    (hsp : ¬ s.spawn - dt ≤ 0) :
    spawnStage cv dt rd s = { s with spawn := s.spawn - dt } := by
  unfold spawnStage
  dsimp only
  rw [if_neg hsp]

theorem spawnStage_doSpawn (cv : Canvas) (dt : ℚ) (rd : Draws) (s : GState)
    (hsp : s.spawn - dt ≤ 0) :
    spawnStage cv dt rd s =
      { s with
        spawn := s.spawnRate
        asteroids := s.asteroids ++ [spawnAsteroid cv.width s.asteroidSpeed rd]
        boosters := if rd.boosterChance01 < 1/5 then s.boosters ++ [spawnBooster cv.width rd]
                    else s.boosters } := by
  unfold spawnStage
  dsimp only
  rw [if_pos hsp]

theorem moveAsteroids_singleton (H dt : ℚ) (a : Asteroid) (h : a.y + a.vy * dt < H + 40) :
    moveAsteroids H dt [a] = [{ a with y := a.y + a.vy * dt, rot := a.rot + a.rSpeed * dt }] := by
  simp [moveAsteroids, h]

theorem preCollide_noInput_noSpawn (cv : Canvas) (now dt : ℚ) (rd : Draws) (s : GState)
    (hb : s.bullets = []) (hsp : ¬ s.spawn - dt ≤ 0) :
    preCollide cv noInput now dt rd s =
      { s with
        player := movePlayer noInput cv.width dt s.player
        bullets := []
        spawn := s.spawn - dt
        asteroids := moveAsteroids cv.height dt s.asteroids
        boosters := moveBoosters cv.height dt s.boosters } := by
  simp only [preCollide]
  rw [fireStage_noInput]
  rw [spawnStage_noSpawn cv dt rd]
  · simp [hb, moveBullets]
  · exact hsp

theorem preCollide_noInput_doSpawn (cv : Canvas) (now dt : ℚ) (rd : Draws) (s : GState)
    (hb : s.bullets = []) (hsp : s.spawn - dt ≤ 0) :
    preCollide cv noInput now dt rd s =
      { s with
        player := movePlayer noInput cv.width dt s.player
        bullets := []
        spawn := s.spawnRate
        asteroids := moveAsteroids cv.height dt
          (s.asteroids ++ [spawnAsteroid cv.width s.asteroidSpeed rd])
        boosters := moveBoosters cv.height dt
          (if rd.boosterChance01 < 1/5 then s.boosters ++ [spawnBooster cv.width rd]
           else s.boosters) } := by
  simp only [preCollide]
  rw [fireStage_noInput]
  rw [spawnStage_doSpawn cv dt rd]
  · simp [hb, moveBullets]
  · exact hsp

theorem update_noInput_noSpawn (cv : Canvas) (now dt : ℚ) (rd : Draws) (s : GState) (a : Asteroid)
    (hb : s.bullets = []) (ha : s.asteroids = [a])
    (hsp : ¬ s.spawn - dt ≤ 0)
    (hfil : a.y + a.vy * dt < cv.height + 40) :
    (update cv noInput now dt rd s).bullets = [] ∧
    (update cv noInput now dt rd s).asteroids =
      [{ a with y := a.y + a.vy * dt, rot := a.rot + a.rSpeed * dt }] ∧
    (update cv noInput now dt rd s).spawn = s.spawn - dt ∧
    (update cv noInput now dt rd s).spawnRate = s.spawnRate := by
  unfold update
  rw [preCollide_noInput_noSpawn cv now dt rd s hb hsp, ha,
      moveAsteroids_singleton cv.height dt a hfil]
  refine ⟨?_, ?_, ?_, ?_⟩
  · rw [(shieldDecay_fields dt _).2.1, (pickupStage_fields _).2.1,
        (collideStage_no_bullets _ rfl).2]
  · rw [(shieldDecay_fields dt _).2.2.1, (pickupStage_fields _).2.2.1,
        (collideStage_no_bullets _ rfl).1]
  · rw [(shieldDecay_fields dt _).2.2.2.1, (pickupStage_fields _).2.2.2.1,
        (collideStage_fields _).2.1]
  · rw [(shieldDecay_fields dt _).2.2.2.2.1, (pickupStage_fields _).2.2.2.2.1,
        (collideStage_fields _).2.2.1]

theorem update_noInput_firstSpawn (cv : Canvas) (now dt : ℚ) (rd : Draws) (s : GState)
    (hb : s.bullets = []) (ha : s.asteroids = [])
    (hsp : s.spawn - dt ≤ 0)
    (hfil : (spawnAsteroid cv.width s.asteroidSpeed rd).y +
      (spawnAsteroid cv.width s.asteroidSpeed rd).vy * dt < cv.height + 40) :
    (update cv noInput now dt rd s).bullets = [] ∧
    (update cv noInput now dt rd s).asteroids =
      [{ spawnAsteroid cv.width s.asteroidSpeed rd with
          y := (spawnAsteroid cv.width s.asteroidSpeed rd).y +
            (spawnAsteroid cv.width s.asteroidSpeed rd).vy * dt,
          rot := (spawnAsteroid cv.width s.asteroidSpeed rd).rot +
            (spawnAsteroid cv.width s.asteroidSpeed rd).rSpeed * dt }] ∧
    (update cv noInput now dt rd s).spawn = s.spawnRate ∧
    (update cv noInput now dt rd s).spawnRate = s.spawnRate := by
  unfold update
  rw [preCollide_noInput_doSpawn cv now dt rd s hb hsp, ha, List.nil_append,
      moveAsteroids_singleton cv.height dt _ hfil]
  refine ⟨?_, ?_, ?_, ?_⟩
  · rw [(shieldDecay_fields dt _).2.1, (pickupStage_fields _).2.1,
        (collideStage_no_bullets _ rfl).2]
  · rw [(shieldDecay_fields dt _).2.2.1, (pickupStage_fields _).2.2.1,
        (collideStage_no_bullets _ rfl).1]
  · rw [(shieldDecay_fields dt _).2.2.2.1, (pickupStage_fields _).2.2.2.1,
        (collideStage_fields _).2.1]
  · rw [(shieldDecay_fields dt _).2.2.2.2.1, (pickupStage_fields _).2.2.2.2.1,
        (collideStage_fields _).2.2.1]

theorem sumDt_nonneg (ts : List Tick) (h : ∀ t ∈ ts, 0 ≤ t.dt) : 0 ≤ sumDt ts := by
  induction ts with
  | nil => norm_num [sumDt]
  | cons t rest ih =>
      have h1 := h t (List.mem_cons_self t rest)
      have h2 := ih (fun x hx => h x (List.mem_cons_of_mem t hx))
      simp only [sumDt]
      linarith

theorem run_keeps_single (cv : Canvas) (ts : List Tick) :
    ∀ (a : Asteroid) (s : GState),
      (∀ t ∈ ts, t.inp = noInput ∧ 0 ≤ t.dt) →
      s.bullets = [] → s.asteroids = [a] →
      sumDt ts < s.spawn →
      0 ≤ a.vy →
      a.y + a.vy * sumDt ts < cv.height + 40 →
      ∃ a2 : Asteroid, (run cv ts s).asteroids = [a2] := by
  induction ts with
  | nil =>
      intro a s _ _ ha _ _ _
      exact ⟨a, ha⟩
  | cons t rest ih =>
      intro a s hts hb ha hsp hvy hfil
      obtain ⟨hinp, hdt⟩ := hts t (List.mem_cons_self t rest)
      have hts2 : ∀ x ∈ rest, x.inp = noInput ∧ 0 ≤ x.dt :=
        fun x hx => hts x (List.mem_cons_of_mem t hx)
      have hrest0 : 0 ≤ sumDt rest := sumDt_nonneg rest (fun x hx => (hts2 x hx).2)
      have hsum : t.dt + sumDt rest < s.spawn := by simpa [sumDt] using hsp
      have hspawn1 : ¬ s.spawn - t.dt ≤ 0 := by intro hcon; linarith
      have hmul := mul_add a.vy t.dt (sumDt rest)
      have hnn := mul_nonneg hvy hrest0
      have hfil0 : a.y + a.vy * (t.dt + sumDt rest) < cv.height + 40 := by
        simpa [sumDt] using hfil
      have hfil1 : a.y + a.vy * t.dt < cv.height + 40 := by linarith
      obtain ⟨u1, u2, u3, u4⟩ :=
        update_noInput_noSpawn cv t.now t.dt t.rd s a hb ha hspawn1 hfil1
      simp only [run]
      rw [hinp]
      apply ih { a with y := a.y + a.vy * t.dt, rot := a.rot + a.rSpeed * t.dt }
        (update cv noInput t.now t.dt t.rd s) hts2 u1 u2
      · rw [u3]; linarith
      · exact hvy
      · dsimp only
        linarith

/-- C3: a fresh easy run, driven by positive-duration no-input ticks whose
durations sum to 1.6 s, ends with exactly one live obstacle (the spawn
timer fires once, on the first tick; nothing is destroyed or culled). -/

theorem c3_easy_one_obstacle_after_spawn_interval (cv : Canvas) (sInit s0 : GState)
    (ticks : List Tick)
    (hH : 60 ≤ cv.height)
    (hticks : ∀ t ∈ ticks, t.inp = noInput ∧ 0 < t.dt ∧ 0 ≤ t.rd.vy01 ∧ t.rd.vy01 < 1)
    (hsum : sumDt ticks = 8/5)
    (hinit : initGame cv "easy" sInit = InitResult.started s0) :
    (run cv ticks s0).asteroids.length = 1 := by
  have hd : difficulty "easy" = Lookup.own ⟨(40, 60), 8/5, 250⟩ := rfl
  simp only [initGame, hd] at hinit
  rw [InitResult.started.injEq] at hinit
  have hb0 : s0.bullets = [] := by rw [← hinit]
  have ha0 : s0.asteroids = [] := by rw [← hinit]
  have hspawn0 : s0.spawn = 0 := by rw [← hinit]
  have hrate0 : s0.spawnRate = 8/5 := by rw [← hinit]
  have hspeed0 : s0.asteroidSpeed = (40, 60) := by rw [← hinit]
  cases ticks with
  | nil => norm_num [sumDt] at hsum
  | cons t rest =>
      obtain ⟨hinp, hdtpos, hv0, hv1⟩ := hticks t (List.mem_cons_self t rest)
      have hts2 : ∀ x ∈ rest, x.inp = noInput ∧ 0 < x.dt ∧ 0 ≤ x.rd.vy01 ∧ x.rd.vy01 < 1 :=
        fun x hx => hticks x (List.mem_cons_of_mem t hx)
      have hrest0 : 0 ≤ sumDt rest := sumDt_nonneg rest (fun x hx => le_of_lt (hts2 x hx).2.1)
      have hsum2 : t.dt + sumDt rest = 8/5 := by simpa [sumDt] using hsum
      have hdtle : t.dt ≤ 8/5 := by linarith
      have hvy_eq : (spawnAsteroid cv.width s0.asteroidSpeed t.rd).vy
          = 40 + t.rd.vy01 * 20 := by
        rw [hspeed0]; norm_num [spawnAsteroid]
      have hy_eq : (spawnAsteroid cv.width s0.asteroidSpeed t.rd).y = -40 := rfl
      have hvyl : 40 ≤ (spawnAsteroid cv.width s0.asteroidSpeed t.rd).vy := by
        rw [hvy_eq]; nlinarith
      have hvyu : (spawnAsteroid cv.width s0.asteroidSpeed t.rd).vy < 60 := by
        rw [hvy_eq]; nlinarith
      have hb1 : (spawnAsteroid cv.width s0.asteroidSpeed t.rd).vy * t.dt < 96 := by
        have g1 : (spawnAsteroid cv.width s0.asteroidSpeed t.rd).vy * t.dt < 60 * t.dt :=
          mul_lt_mul_of_pos_right hvyu hdtpos
        have g2 : (60:ℚ) * t.dt ≤ 60 * (8/5) := by
          have := mul_le_mul_of_nonneg_left hdtle (by norm_num : (0:ℚ) ≤ 60)
          linarith
        linarith
      have hfil1 : (spawnAsteroid cv.width s0.asteroidSpeed t.rd).y +
          (spawnAsteroid cv.width s0.asteroidSpeed t.rd).vy * t.dt < cv.height + 40 := by
        rw [hy_eq]; linarith
      obtain ⟨u1, u2, u3, u4⟩ := update_noInput_firstSpawn cv t.now t.dt t.rd s0 hb0 ha0
        (by rw [hspawn0]; linarith) hfil1
      simp only [run]
      rw [hinp]
      have hmul := mul_add (spawnAsteroid cv.width s0.asteroidSpeed t.rd).vy t.dt (sumDt rest)
      have h85 : (spawnAsteroid cv.width s0.asteroidSpeed t.rd).vy * (t.dt + sumDt rest)
          = (spawnAsteroid cv.width s0.asteroidSpeed t.rd).vy * (8/5) := by rw [hsum2]
      have h96 : (spawnAsteroid cv.width s0.asteroidSpeed t.rd).vy * (8/5 : ℚ) < 96 := by
        have := mul_lt_mul_of_pos_right hvyu (by norm_num : (0:ℚ) < 8/5)
        linarith
      obtain ⟨a2, hres⟩ := run_keeps_single cv rest
        { spawnAsteroid cv.width s0.asteroidSpeed t.rd with
          y := (spawnAsteroid cv.width s0.asteroidSpeed t.rd).y +
            (spawnAsteroid cv.width s0.asteroidSpeed t.rd).vy * t.dt,
          rot := (spawnAsteroid cv.width s0.asteroidSpeed t.rd).rot +
            (spawnAsteroid cv.width s0.asteroidSpeed t.rd).rSpeed * t.dt }
        (update cv noInput t.now t.dt t.rd s0)
        (fun x hx => ⟨(hts2 x hx).1, le_of_lt (hts2 x hx).2.1⟩) u1 u2
        (by rw [u3, hrate0]; linarith)
        (by dsimp only; linarith)
        (by dsimp only; rw [hy_eq]; linarith)
      rw [hres]
      rfl

theorem c3_witness :
    sumDt [tick45, tick45] = 8/5 ∧
    (run cvEx [tick45, tick45] s03).asteroids.length = 1 := by
  constructor
  · norm_num [sumDt, tick45]
  · exact c3_easy_one_obstacle_after_spawn_interval cvEx gs0 s03 [tick45, tick45]
      (by norm_num [cvEx])
      (by
        intro t ht
        have ht2 : t = tick45 := by simpa using ht
        subst ht2
        exact ⟨rfl, by norm_num [tick45], by norm_num [tick45, rd0], by norm_num [tick45, rd0]⟩)
      (by norm_num [sumDt, tick45])
      rfl

end AsteroidGame
